import Mathlib

/-!
Verification of the LabJack T7 firmware-upgrade module
(`src/labjack_t7_upgrade.js`).  The source file contains two copies of the
module separated by a document marker; the claims cite the first copy
(lines 1-940), whose flash engine issues mixed `rwMany` transactions with
per-frame value counts, and all line numbers below refer to that copy
unless stated otherwise.  Machine integers are modelled as `Nat` (all the
quantities involved are non-negative and no arithmetic here can overflow a
JS double), JS `null` inside a value array as `Option.none`, and a promise
that can settle as an explicit outcome value.
-/

namespace T7Upgrade

/-- Constants imported from the external `labjack-nodejs` `driver_const`
module.  Their numeric values are defined outside this repository, so the
development is parameterised over them; no claim depends on the actual
numbers. -/
structure DriverConst where
  T7_MA_EXF_KEY : Nat
  T7_MA_EXF_ERASE : Nat
  T7_FLASH_PAGE_SIZE : Nat
  T7_HEAD_FIRST_FOUR_BYTES : Nat
  T7_TARGET_OLD : Nat
  T7_TARGET : Nat
deriving DecidableEq

/-- A sample assignment of the external constants, used to instantiate
witnesses and counterexamples on concrete inputs. -/
def dcSample : DriverConst :=
  { T7_MA_EXF_KEY := 61800
    T7_MA_EXF_ERASE := 61820
    T7_FLASH_PAGE_SIZE := 4096
    T7_HEAD_FIRST_FOUR_BYTES := 5
    T7_TARGET_OLD := 200
    T7_TARGET := 201 }

/-- Line 22: `EXPECTED_ZEROED_MEM_VAL = 4294967295` (0xFFFFFFFF), the value a
freshly erased flash word reads back as. -/
def EXPECTED_ZEROED_MEM_VAL : Nat := 4294967295

/-- The JavaScript values that flow through the promise chains we analyse:
the `DeviceFirmwareBundle` object, `undefined`, or an array of 32-bit
words. -/
inductive JsVal where
  | bundle
  | undef
  | arr (ws : List Nat)
deriving DecidableEq

/-- JS `v.length` as used as a `for`-loop bound (`for (i=0; i<v.length; ...)`):
on a non-array the property is `undefined`, the comparison `i < undefined`
is false, and the loop body never runs, so the effective bound is 0. -/
def jsLengthNat : JsVal → Nat
  | JsVal.arr ws => ws.length
  | _ => 0

/-- JS indexing `v[i]`: an element for an in-range array index, otherwise
`undefined` (modelled as `none`). -/
def jsIndex : JsVal → Nat → Option Nat
  | JsVal.arr ws, i => ws[i]?
  | _, _ => none

/-- Outcome of a promise that settles. -/
inductive Outcome where
  | resolved
  | rejected (msg : String)
deriving DecidableEq

/-- Lines 36-53, `range` in the one-argument form `range(n)` used by
`eraseFlash` (start = 0, step = 1): empty when `start >= stop`, otherwise
the numbers 0, 1, ..., n-1 pushed in order. -/
def rangeJs (stop : Nat) : List Nat :=
  if stop ≤ 0 then [] else List.range stop

/-- One `device.writeMany(addresses, values, ...)` call. -/
structure WriteManyCall where
  addresses : List Nat
  values : List Nat
deriving DecidableEq

/-- Lines 305-330, `eraseFlash`: the sequence of `writeMany` transactions it
issues when no call fails, one per page of `range(numPages)`, each writing
`[key, startAddress + page * T7_FLASH_PAGE_SIZE]` to
`[T7_MA_EXF_KEY, T7_MA_EXF_ERASE]` (lines 314-316). -/
def eraseFlashCalls (dc : DriverConst) (startAddress numPages key : Nat) :
    List WriteManyCall :=
  (rangeJs numPages).map (fun page =>
    { addresses := [dc.T7_MA_EXF_KEY, dc.T7_MA_EXF_ERASE]
      values := [key, startAddress + page * dc.T7_FLASH_PAGE_SIZE] })

/-- Lines 311-327, the `async.eachSeries` driving `eraseFlash`: the device is
modelled by the error (if any) each `writeMany` call reports; the series
aborts at the first error, rejecting with it (line 323), and otherwise
resolves with the unchanged bundle (line 325). -/
def eraseFlashOutcome (dc : DriverConst) (startAddress numPages key : Nat)
    (deviceErr : WriteManyCall → Option String) : Outcome :=
  match (eraseFlashCalls dc startAddress numPages key).findSome? deviceErr with
  | some e => Outcome.rejected e
  | none => Outcome.resolved

/-- Node `Buffer.readUInt32BE`: big-endian 32-bit decode of the four bytes at
`off` (a buffer is a byte list; out-of-range bytes default to 0, which the
in-range uses of the source never hit). -/
def readUInt32BE (buf : List Nat) (off : Nat) : Nat :=
  (buf.getD off 0) * 16777216 + (buf.getD (off + 1) 0) * 65536 +
    (buf.getD (off + 2) 0) * 256 + buf.getD (off + 3) 0

/-- Lines 457-463, `getdata`: the `numIntegers` big-endian u32 words decoded
from `imageBuffer` starting at byte `offset`. -/
def getdata (imageBuffer : List Nat) (numIntegers offset : Nat) : List Nat :=
  (List.range numIntegers).map (fun i => readUInt32BE imageBuffer (i * 4 + offset))

/-- Frame direction constants `LJM_READ` / `LJM_WRITE` of the external
driver. -/
inductive Direction where
  | read
  | write
deriving DecidableEq

/-- The four parallel arrays handed to `device.rwMany(addresses, directions,
numValues, values, ...)` at lines 441-445.  `values` holds `null`
placeholders (`none`) for read slots. -/
structure RwTransaction where
  addresses : List Nat
  directions : List Direction
  numValues : List Nat
  values : List (Option Nat)
deriving DecidableEq

/-- Lines 394-455, `createExecution`: the single `rwMany` transaction built
for one chunk.  Push order in the source: the pointer-frame direction first
(line 407); then, when a `key` is given, the key frame (direction, address
`T7_MA_EXF_KEY`, value `key`, lines 415-417) and `numValues` starts `[1, 1]`
instead of `[1]` (lines 412/419); then the window-frame direction (read or
write, lines 422-425); then the pointer address and value and the window
address (lines 427-429); then `innerSize` nulls for a read or the
`writeValues` for a write (lines 431-437); finally `numValues` gets
`innerSize` appended (line 439). -/
def createExecution (dc : DriverConst) (key : Option Nat) (isReadOp : Bool)
    (ptrAddress flashAddress : Nat) (address innerSize : Nat)
    (writeValues : List Nat) : RwTransaction :=
  let directionsA : List Direction :=
    match key with
    | none => [Direction.write]
    | some _ => [Direction.write, Direction.write]
  let addressesA : List Nat :=
    match key with
    | none => []
    | some _ => [dc.T7_MA_EXF_KEY]
  let valuesA : List (Option Nat) :=
    match key with
    | none => []
    | some k => [some k]
  let numValuesA : List Nat :=
    match key with
    | none => [1]
    | some _ => [1, 1]
  { addresses := addressesA ++ [ptrAddress, flashAddress]
    directions := directionsA ++ [if isReadOp then Direction.read else Direction.write]
    numValues := numValuesA ++ [innerSize]
    values := (valuesA ++ [some address]) ++
      (if isReadOp then List.replicate innerSize none else writeValues.map some) }

/-- Lines 475-496, the full-chunk loop of `createFlashOperation`: `n` more
full chunks starting at `currentAddress` with data offset `offset`.  Each
iteration pushes `createExecution(currentAddress, size)` for a read or
`createExecution(currentAddress, size, getdata(data, 8, offset))` for a
write (the word count is hard-coded to 8, line 488), then advances
`currentAddress` by `size * 4` (line 494) and `offset` by 32 (line 495). -/
def buildOperations (dc : DriverConst) (key : Option Nat) (isReadOp : Bool)
    (ptrAddress flashAddress : Nat) (data : List Nat) (size : Nat) :
    Nat → Nat → Nat → List RwTransaction
  | _, _, 0 => []
  | currentAddress, offset, n + 1 =>
      createExecution dc key isReadOp ptrAddress flashAddress currentAddress size
          (if isReadOp then [] else getdata data 8 offset) ::
        buildOperations dc key isReadOp ptrAddress flashAddress data size
          (currentAddress + size * 4) (offset + 32) n

/-- Lines 465-516, `createFlashOperation`'s chunk plan: `numIterations =
floor(lengthInts / sizeInts)` full chunks followed, when `remainder =
lengthInts mod sizeInts` is positive, by one tail chunk of `remainder`
words at the address and data offset the loop finished on
(`startAddress + numIterations * sizeInts * 4` and `numIterations * 32`),
drawing `getdata(data, remainder, offset)` for a write (lines 498-516).
The transactions execute strictly sequentially (the `async.reduce` at
lines 518-530 starts a chunk only in the previous chunk's success
callback), so the list order below is the order they are issued in. -/
def createFlashOperationTrace (dc : DriverConst)
    (startAddress lengthInts sizeInts ptrAddress flashAddress : Nat)
    (isReadOp : Bool) (key : Option Nat) (data : List Nat) :
    List RwTransaction :=
  let numIterations := lengthInts / sizeInts
  let remainder := lengthInts % sizeInts
  let full := buildOperations dc key isReadOp ptrAddress flashAddress data sizeInts
    startAddress 0 numIterations
  if remainder > 0 then
    full ++ [createExecution dc key isReadOp ptrAddress flashAddress
      (startAddress + numIterations * (sizeInts * 4)) remainder
      (if isReadOp then [] else getdata data remainder (numIterations * 32))]
  else full

/-- Number of leading frames contributed by the key (0 without a key, 1 with
one); the pointer frame follows them and the window frame is last. -/
def keyFrames : Option Nat → Nat
  | none => 0
  | some _ => 1

/-- The window-frame portion of a transaction's value array: everything after
the key value (if any) and the pointer value, i.e. the words actually sent
to (or placeholders read from) the flash window register. -/
def windowValues (key : Option Nat) (t : RwTransaction) : List (Option Nat) :=
  t.values.drop (1 + keyFrames key)

/-- Lines 518-530, the `async.reduce` accumulator: each chunk's success
callback appends the device's `newResults` onto `lastResults` (line 448),
starting from `[]`. -/
def asyncReduceMemory (deviceReturns : List (List Nat)) : List Nat :=
  deviceReturns.foldl (fun lastResults newResults => lastResults ++ newResults) []

/-- Line 535: when no chunk fails, `createFlashOperation` resolves its promise
with `bundle` — the accumulated `allMemoryRead` of the reduce is discarded.
The device is modelled by the per-chunk word lists it returns. -/
def createFlashOperationResolved (deviceReturns : List (List Nat)) : JsVal :=
  let _allMemoryRead := asyncReduceMemory deviceReturns
  JsVal.bundle

/-- Lines 552-566, `readFlash`: returns `createFlashOperation(...)` directly,
so its promise resolves with whatever that resolves with. -/
def readFlashResolved (deviceReturns : List (List Nat)) : JsVal :=
  createFlashOperationResolved deviceReturns

/-- Lines 575-593, `readImage`: chains on `readFlash` and resolves with the
bundle (line 588); the `memoryContents` parameter is dropped. -/
def readImageResolved (deviceReturns : List (List Nat)) : JsVal :=
  let _memoryContents := readFlashResolved deviceReturns
  JsVal.bundle

/-- Lines 602-620, `readImageInformation`: chains on `readFlash` over the
header region and resolves with the bundle (line 615); the
`memoryContents` parameter is dropped. -/
def readImageInformationResolved (deviceReturns : List (List Nat)) : JsVal :=
  let _memoryContents := readFlashResolved deviceReturns
  JsVal.bundle

/-- Lines 635-645, `isAllZeroed`: loops `i` from 0 below `memory.length`
comparing `memory[i]` with `EXPECTED_ZEROED_MEM_VAL`.  On a non-array
argument the bound is `undefined`, the loop runs zero times and the
function returns `true`. -/
def isAllZeroed (memory : JsVal) : Bool :=
  (List.range (jsLengthNat memory)).all
    (fun i => jsIndex memory i == some EXPECTED_ZEROED_MEM_VAL)

/-- Lines 631-680, `checkErase`, as a function of the per-chunk word lists
the device returns for the header-region and image-region readbacks (both
reads succeeding at the link level).  The chain at lines 672-677:
`readImageInformation` resolves with the bundle, which is what
`checkIfZeroedThenContinue` (lines 647-654) receives — that helper never
returns its inner promise, so whatever it computes, the chain continues;
then `checkMemory(readImage)` (lines 656-670) receives the bundle from
`readImage`, rejects the outer promise when `isAllZeroed` fails on it
(line 663) and otherwise lets the chain resolve the bundle (line 676). -/
def checkErase (hdrReturns imgReturns : List (List Nat)) : Outcome :=
  let m1 := readImageInformationResolved hdrReturns
  let _check1 := isAllZeroed m1
  let m2 := readImageResolved imgReturns
  if !(isAllZeroed m2) then
    Outcome.rejected "Memory not zeroed."
  else
    Outcome.resolved

/-- Lines 778-795, `checkImageWrite`, as a function of the bundle's firmware
image bytes and the per-chunk word lists the device returns for the
image-region readback.  The callback parameter `readImage` is the value
`readImage` resolves with — the bundle (line 588) — so the loop bound
`readImageLength` (line 783) is `undefined` and the comparison loop at
lines 785-789 runs zero times before line 791 resolves; a mismatch found
at index `i` would reject with the message of line 788, and with q's
first-settle-wins this is the smallest such index. -/
def checkImageWrite (bundleImageBytes : List Nat)
    (imgReturns : List (List Nat)) : Outcome :=
  let readImageVal := readImageResolved imgReturns
  match (List.range (jsLengthNat readImageVal)).find?
      (fun i => !(bundleImageBytes[i]? == jsIndex readImageVal i)) with
  | some i => Outcome.rejected ("Unexpected image data at " ++ toString i)
  | none => Outcome.resolved

/-- The header fields `checkCompatibility` consults.  Versions are compared
to four decimals in the source (a `toFixed(4)` string coerced back to a
number); both sides are modelled in units of 1/10000. -/
structure ImageInformation where
  headerCode : Nat
  intendedDevice : Nat
  containedVersion : Nat
deriving DecidableEq

/-- Lines 18-21: the device-type tags accepted by the compatibility gate,
`[T7_TARGET_OLD, T7_TARGET]`. -/
def ALLOWED_IMAGE_INFO_DEVICE_TYPES (dc : DriverConst) : List Nat :=
  [dc.T7_TARGET_OLD, dc.T7_TARGET]

/-- Lines 266-291, `checkCompatibility`: a pure function of the parsed header
fields and the bundle's firmware version — it performs no device
operation.  It resolves when the header code matches
`T7_HEAD_FIRST_FOUR_BYTES`, the intended device is listed in
`ALLOWED_IMAGE_INFO_DEVICE_TYPES` (`indexOf != -1`, line 275), and the
contained version equals the declared version; otherwise it rejects with
the first applicable of the three errors of lines 282-287. -/
def checkCompatibility (dc : DriverConst) (info : ImageInformation)
    (firmwareVersion : Nat) : Except String Unit :=
  let headerCodeCorrect : Bool := info.headerCode == dc.T7_HEAD_FIRST_FOUR_BYTES
  let intendedDeviceCorrect : Bool :=
    (ALLOWED_IMAGE_INFO_DEVICE_TYPES dc).contains info.intendedDevice
  let versionCorrect : Bool := info.containedVersion == firmwareVersion
  if headerCodeCorrect && intendedDeviceCorrect && versionCorrect then
    Except.ok ()
  else if !headerCodeCorrect then
    Except.error "Invalid header code."
  else if !intendedDeviceCorrect then
    Except.error "Incorrect device type."
  else
    Except.error "Incorrect version."

/-- JS `String.prototype.split(sep)` for a single-character separator, on
strings as character lists. -/
def splitOnChar (sep : Char) : List Char → List (List Char)
  | [] => [[]]
  | c :: rest =>
    if c = sep then
      [] :: splitOnChar sep rest
    else
      match splitOnChar sep rest with
      | [] => [[c]]
      | piece :: pieces => (c :: piece) :: pieces

/-- JS `String.prototype.replace(pattern, '')` for a plain-string pattern:
removes the first occurrence of `pat`, leaving the string unchanged when
`pat` does not occur. -/
def replaceFirstBy (pat : List Char) : List Char → List Char
  | [] => []
  | c :: rest =>
    if pat.isPrefixOf (c :: rest) then (c :: rest).drop pat.length
    else c :: replaceFirstBy pat rest

/-- JS `s.substr(0, s.indexOf(sep))`: the characters before the first
occurrence of `sep`, and the empty string when `sep` does not occur
(`indexOf` is -1 and `substr(0, -1)` is empty). -/
def substrToChar (sep : Char) (l : List Char) : List Char :=
  if l.contains sep then l.takeWhile (fun c => !(c == sep)) else []

/-- Value of a digit string. -/
def digitsToNat (l : List Char) : Nat :=
  l.foldl (fun acc c => acc * 10 + (c.toNat - 48)) 0

/-- JS `Number(s)` restricted to the string shapes the version-parsing code
can meet: the empty string is 0, a pure digit string is its decimal value,
and anything else (such as `firmware` or `undefined`) is NaN, modelled as
`none`. -/
def jsNumberNat (l : List Char) : Option Nat :=
  if l.isEmpty then some 0
  else if l.all Char.isDigit then some (digitsToNat l)
  else none

/-- Lines 247-249 of the first module copy: the firmware version is
`Number(fileSrc.split('_')[1]) / 10000`.  The result is returned scaled by
10000 (the division's numerator), `none` meaning NaN; an out-of-range
index yields `undefined` and hence NaN as well. -/
def firmwareVersionTimes10000 (fileSrc : List Char) : Option Nat :=
  match (splitOnChar '_' fileSrc)[1]? with
  | none => none
  | some versionStr => jsNumberNat versionStr

/-- Lines 1093-1095 of the second module copy: the version string is
`fileSrc.replace('T7_firmware_', '')` cut at its first underscore, again
divided by 10000 (returned scaled by 10000, `none` meaning NaN). -/
def firmwareVersionTimes10000Alt (fileSrc : List Char) : Option Nat :=
  let versionStr := replaceFirstBy ("T7_firmware_".toList) fileSrc
  jsNumberNat (substrToChar '_' versionStr)

/-- What the `readFirmwareFile` promise does: resolve with a parsed bundle
(of which we record the component the claims constrain, the scaled
firmware version), reject, or never settle. -/
inductive ReadFileOutcome where
  | resolved (firmwareVersionScaled : Option Nat)
  | rejected (e : String)
  | neverSettled
deriving DecidableEq

/-- Node `new Buffer(data)`: throws a `TypeError` when `data` is
`undefined`. -/
def jsNewBuffer : Option (List Nat) → Except String (List Nat)
  | none => Except.error "TypeError"
  | some d => Except.ok d

/-- Lines 215-255, `readFirmwareFile`, as a function of the path and of what
`fs.readFile` hands the callback.  The callback never inspects `err`
(line 221): on an I/O failure `data` is `undefined`, `new Buffer(data)`
(line 222) throws inside the callback, and the deferred is never settled;
on success the file is parsed and the bundle resolved (line 251). -/
def readFirmwareFile (fileSrc : List Char)
    (fsResult : Except String (List Nat)) : ReadFileOutcome :=
  let data : Option (List Nat) :=
    match fsResult with
    | Except.ok d => some d
    | Except.error _ => none
  match jsNewBuffer data with
  | Except.error _ => ReadFileOutcome.neverSettled
  | Except.ok _imageFile =>
      ReadFileOutcome.resolved (firmwareVersionTimes10000 fileSrc)

theorem buildOperations_length (dc : DriverConst) (key : Option Nat)
    (isReadOp : Bool) (ptrAddress flashAddress : Nat) (data : List Nat)
    (size : Nat) : ∀ (n a off : Nat),
    (buildOperations dc key isReadOp ptrAddress flashAddress data size a off n).length = n := by
  intro n
  induction n with
  | zero => intro a off; rfl
  | succ m ih => intro a off; simp [buildOperations, ih]

theorem buildOperations_getElem (dc : DriverConst) (key : Option Nat)
    (isReadOp : Bool) (ptrAddress flashAddress : Nat) (data : List Nat)
    (size : Nat) : ∀ (n i a off : Nat), i < n →
    (buildOperations dc key isReadOp ptrAddress flashAddress data size a off n)[i]? =
      some (createExecution dc key isReadOp ptrAddress flashAddress
        (a + i * (size * 4)) size
        (if isReadOp then [] else getdata data 8 (off + i * 32))) := by
  intro n
  induction n with
  | zero => intro i a off h; exact absurd h (Nat.not_lt_zero i)
  | succ m ih =>
    intro i a off h
    cases i with
    | zero => simp [buildOperations]
    | succ j =>
      have hj : j < m := Nat.lt_of_succ_lt_succ h
      have h1 : a + size * 4 + j * (size * 4) = a + (j + 1) * (size * 4) := by ring
      have h2 : off + 32 + j * 32 = off + (j + 1) * 32 := by ring
      rw [buildOperations, List.getElem?_cons_succ,
        ih j (a + size * 4) (off + 32) hj, h1, h2]

theorem div_ceil_eq (n c : Nat) (hc : 0 < c) :
    n / c + (if n % c = 0 then 0 else 1) = (n + c - 1) / c := by
  by_cases h : n % c = 0
  · obtain ⟨k, hk⟩ := Nat.dvd_of_mod_eq_zero h
    subst hk
    have e1 : c * k + c - 1 = (c - 1) + k * c := by
      rw [Nat.mul_comm]; omega
    rw [e1, Nat.add_mul_div_right _ _ hc, Nat.div_eq_of_lt (by omega : c - 1 < c),
      Nat.mul_div_cancel_left k hc]
    simp [h]
  · have hd := Nat.div_add_mod n c
    have hr : 0 < n % c := Nat.pos_of_ne_zero h
    have hrc : n % c < c := Nat.mod_lt n hc
    have hd' : n / c * c + n % c = n := by
      rw [Nat.mul_comm (n / c) c]; exact hd
    have e1 : n + c - 1 = n % c - 1 + (n / c + 1) * c := by
      rw [Nat.succ_mul]; omega
    rw [e1, Nat.add_mul_div_right _ _ hc,
      Nat.div_eq_of_lt (by omega : n % c - 1 < c)]
    simp [h]

theorem createFlashOperationTrace_length (dc : DriverConst)
    (startAddress lengthInts sizeInts ptrAddress flashAddress : Nat)
    (isReadOp : Bool) (key : Option Nat) (data : List Nat)
    (hs : 0 < sizeInts) :
    (createFlashOperationTrace dc startAddress lengthInts sizeInts ptrAddress
        flashAddress isReadOp key data).length =
      (lengthInts + sizeInts - 1) / sizeInts := by
  rw [← div_ceil_eq lengthInts sizeInts hs]
  simp only [createFlashOperationTrace]
  by_cases h : lengthInts % sizeInts = 0
  · rw [if_neg (by omega), buildOperations_length]
    simp [h]
  · rw [if_pos (by omega), List.length_append, buildOperations_length]
    simp [h]

theorem createFlashOperationTrace_getElem_full (dc : DriverConst)
    (startAddress lengthInts sizeInts ptrAddress flashAddress : Nat)
    (isReadOp : Bool) (key : Option Nat) (data : List Nat)
    (i : Nat) (hi : i < lengthInts / sizeInts) :
    (createFlashOperationTrace dc startAddress lengthInts sizeInts ptrAddress
        flashAddress isReadOp key data)[i]? =
      some (createExecution dc key isReadOp ptrAddress flashAddress
        (startAddress + i * (sizeInts * 4)) sizeInts
        (if isReadOp then [] else getdata data 8 (i * 32))) := by
  have hfull : i < (buildOperations dc key isReadOp ptrAddress flashAddress data
      sizeInts startAddress 0 (lengthInts / sizeInts)).length := by
    rw [buildOperations_length]; exact hi
  simp only [createFlashOperationTrace]
  by_cases h : lengthInts % sizeInts > 0
  · rw [if_pos h, List.getElem?_append_left hfull,
      buildOperations_getElem dc key isReadOp ptrAddress flashAddress data
        sizeInts (lengthInts / sizeInts) i startAddress 0 hi]
    simp
  · rw [if_neg h,
      buildOperations_getElem dc key isReadOp ptrAddress flashAddress data
        sizeInts (lengthInts / sizeInts) i startAddress 0 hi]
    simp

theorem createFlashOperationTrace_getElem_tail (dc : DriverConst)
    (startAddress lengthInts sizeInts ptrAddress flashAddress : Nat)
    (isReadOp : Bool) (key : Option Nat) (data : List Nat)
    (h : lengthInts % sizeInts ≠ 0) :
    (createFlashOperationTrace dc startAddress lengthInts sizeInts ptrAddress
        flashAddress isReadOp key data)[lengthInts / sizeInts]? =
      some (createExecution dc key isReadOp ptrAddress flashAddress
        (startAddress + (lengthInts / sizeInts) * (sizeInts * 4))
        (lengthInts % sizeInts)
        (if isReadOp then []
         else getdata data (lengthInts % sizeInts)
           ((lengthInts / sizeInts) * 32))) := by
  have hr : 0 < lengthInts % sizeInts := Nat.pos_of_ne_zero h
  have hlen : (buildOperations dc key isReadOp ptrAddress flashAddress data
      sizeInts startAddress 0 (lengthInts / sizeInts)).length =
      lengthInts / sizeInts :=
    buildOperations_length dc key isReadOp ptrAddress flashAddress data sizeInts
      (lengthInts / sizeInts) startAddress 0
  simp only [createFlashOperationTrace]
  rw [if_pos hr, List.getElem?_append_right (le_of_eq hlen), hlen,
    Nat.sub_self]
  rfl

theorem windowValues_createExecution_write (dc : DriverConst)
    (ptrAddress flashAddress address innerSize k : Nat)
    (writeValues : List Nat) :
    windowValues (some k) (createExecution dc (some k) false ptrAddress
      flashAddress address innerSize writeValues) = writeValues.map some := rfl

/-- Claim C1.  The claim says `checkErase` resolves iff every word read back
from both regions is 0xFFFFFFFF; the code instead resolves for every
readback (first conjunct), in particular for readbacks of all-zero words
(second conjunct), words which are not `EXPECTED_ZEROED_MEM_VAL` (third
conjunct): the word-value verification is vacuous because the two read
helpers resolve with the bundle rather than the memory. -/
theorem claim_C1 :
    (∀ hdrReturns imgReturns : List (List Nat),
      checkErase hdrReturns imgReturns = Outcome.resolved)
    ∧ checkErase [[0, 0, 0]] [[0]] = Outcome.resolved
    ∧ (((0 : Nat) == EXPECTED_ZEROED_MEM_VAL) = false) :=
  ⟨fun _ _ => rfl, rfl, rfl⟩

/-- Claim C2.  The claim says `readFlash` resolves to the flat word sequence
accumulated from the per-chunk device results; the code's reduce does
accumulate exactly that concatenation (second conjunct, at the spec's
readFlash(start=0, len=3, chunk=2) scenario), but the promise resolves with
the bundle for every device return (first conjunct), never with the word
array (third conjunct). -/
theorem claim_C2 :
    (∀ deviceReturns : List (List Nat),
      readFlashResolved deviceReturns = JsVal.bundle)
    ∧ asyncReduceMemory [[1, 2], [3]] = [1, 2, 3]
    ∧ ((readFlashResolved [[1, 2], [3]] == JsVal.arr [1, 2, 3]) = false) :=
  ⟨fun _ => rfl, by decide, by decide⟩

/-- Claim C3.  For every start address, length at least 1, chunk size at
least 1, direction, key and data, the engine issues exactly
ceil(lengthInts / sizeInts) transactions, the i-th carrying the flash
pointer value startAddress + i * (sizeInts * 4) — an arithmetic progression
of stride sizeInts * 4 — with the first floor(lengthInts / sizeInts)
transactions declaring sizeInts words each and, when lengthInts mod
sizeInts is nonzero, one final transaction declaring the remainder.  The
transactions run strictly sequentially: the trace lists them in issue
order, and the source's async.reduce starts a chunk only in the previous
chunk's success callback. -/
theorem claim_C3 (dc : DriverConst)
    (startAddress lengthInts sizeInts ptrAddress flashAddress : Nat)
    (isReadOp : Bool) (key : Option Nat) (data : List Nat)
    (_hlen : 0 < lengthInts) (hsize : 0 < sizeInts) :
    (createFlashOperationTrace dc startAddress lengthInts sizeInts ptrAddress
        flashAddress isReadOp key data).length =
      (lengthInts + sizeInts - 1) / sizeInts
    ∧ (∀ i, i < lengthInts / sizeInts →
        (createFlashOperationTrace dc startAddress lengthInts sizeInts
            ptrAddress flashAddress isReadOp key data)[i]? =
          some (createExecution dc key isReadOp ptrAddress flashAddress
            (startAddress + i * (sizeInts * 4)) sizeInts
            (if isReadOp then [] else getdata data 8 (i * 32))))
    ∧ (lengthInts % sizeInts ≠ 0 →
        (createFlashOperationTrace dc startAddress lengthInts sizeInts
            ptrAddress flashAddress isReadOp key data)[lengthInts / sizeInts]? =
          some (createExecution dc key isReadOp ptrAddress flashAddress
            (startAddress + (lengthInts / sizeInts) * (sizeInts * 4))
            (lengthInts % sizeInts)
            (if isReadOp then []
             else getdata data (lengthInts % sizeInts)
               ((lengthInts / sizeInts) * 32)))) :=
  ⟨createFlashOperationTrace_length dc startAddress lengthInts sizeInts
      ptrAddress flashAddress isReadOp key data hsize,
   fun i hi => createFlashOperationTrace_getElem_full dc startAddress
      lengthInts sizeInts ptrAddress flashAddress isReadOp key data i hi,
   fun h => createFlashOperationTrace_getElem_tail dc startAddress lengthInts
      sizeInts ptrAddress flashAddress isReadOp key data h⟩

theorem claim_C3_witness :
    0 < 3 ∧ 0 < 2 ∧
    (createFlashOperationTrace dcSample 0 3 2 100 200 true none []).length =
      (3 + 2 - 1) / 2 :=
  ⟨by decide, by decide,
   (claim_C3 dcSample 0 3 2 100 200 true none [] (by decide) (by decide)).1⟩

/-- Claim C4.  Each chunk is one rwMany transaction.  Reads (no key): a write
of the chunk's flash address to the pointer register, then a read of
innerSize values from the window register — 2 frames, per-frame value
counts [1, innerSize], with innerSize null placeholders in the value
array.  Writes (with key): a write of the key to the key register, then the
flash address to the pointer register, then the data words to the window
register — 3 frames, per-frame value counts [1, 1, innerSize]. -/
theorem claim_C4 (dc : DriverConst)
    (ptrAddress flashAddress address innerSize k : Nat)
    (writeValues : List Nat) :
    createExecution dc none true ptrAddress flashAddress address innerSize
        writeValues =
      { addresses := [ptrAddress, flashAddress]
        directions := [Direction.write, Direction.read]
        numValues := [1, innerSize]
        values := some address :: List.replicate innerSize none }
    ∧ createExecution dc (some k) false ptrAddress flashAddress address
        innerSize writeValues =
      { addresses := [dc.T7_MA_EXF_KEY, ptrAddress, flashAddress]
        directions := [Direction.write, Direction.write, Direction.write]
        numValues := [1, 1, innerSize]
        values := some k :: some address :: writeValues.map some } :=
  ⟨rfl, rfl⟩

/-- Claim C5, amended to chunk size 8 (the hardware cap per mixed transaction
and the only size the module passes, T7_FLASH_BLOCK_WRITE_SIZE): the i-th
full chunk of a write sends exactly the 8 big-endian u32 words decoded from
data at byte offset i * (8 * 4), and the tail chunk sends the remaining
lengthInts mod 8 words from byte offset (lengthInts / 8) * (8 * 4). -/
theorem claim_C5 (dc : DriverConst)
    (k startAddress lengthInts ptrAddress flashAddress : Nat)
    (data : List Nat) :
    (∀ i, i < lengthInts / 8 →
      ((createFlashOperationTrace dc startAddress lengthInts 8 ptrAddress
          flashAddress false (some k) data)[i]?).map (windowValues (some k)) =
        some ((getdata data 8 (i * (8 * 4))).map some))
    ∧ (lengthInts % 8 ≠ 0 →
      ((createFlashOperationTrace dc startAddress lengthInts 8 ptrAddress
          flashAddress false (some k)
          data)[lengthInts / 8]?).map (windowValues (some k)) =
        some ((getdata data (lengthInts % 8)
          ((lengthInts / 8) * (8 * 4))).map some)) := by
  constructor
  · intro i hi
    rw [createFlashOperationTrace_getElem_full dc startAddress lengthInts 8
      ptrAddress flashAddress false (some k) data i hi]
    simp [windowValues_createExecution_write]
  · intro h
    rw [createFlashOperationTrace_getElem_tail dc startAddress lengthInts 8
      ptrAddress flashAddress false (some k) data h]
    simp [windowValues_createExecution_write]

theorem claim_C5_witness :
    ((createFlashOperationTrace dcSample 0 9 8 100 200 false
        (some 5) [])[0]?).map (windowValues (some 5)) =
      some ((getdata [] 8 (0 * (8 * 4))).map some)
    ∧ ((createFlashOperationTrace dcSample 0 9 8 100 200 false
        (some 5) [])[9 / 8]?).map (windowValues (some 5)) =
      some ((getdata [] (9 % 8) ((9 / 8) * (8 * 4))).map some) :=
  ⟨(claim_C5 dcSample 5 0 9 100 200 []).1 0 (by decide),
   (claim_C5 dcSample 5 0 9 100 200 []).2 (by decide)⟩

/-- Claim C5, counterexample to the claim as stated: with chunk size 4, full
chunk 1 of writeFlash(start=0, len=8, chunk=4) sends the 8 words decoded
from data at byte offset 32 (the hard-coded getdata(data, 8, offset) with
offset advancing by 32), not the 4 = chunkInts words from byte offset
1 * (4 * 4) = 16 that the claim predicts. -/
theorem claim_C5_counterexample :
    ((createFlashOperationTrace dcSample 0 8 4 100 200 false (some 5)
        (List.range 64))[1]?).map (windowValues (some 5)) =
      some ((getdata (List.range 64) 8 32).map some)
    ∧ (((getdata (List.range 64) 8 32).map some ==
        (getdata (List.range 64) 4 (1 * (4 * 4))).map some) = false) := by
  exact ⟨by decide, by decide⟩

/-- Claim C6.  The compatibility gate — a pure function of the parsed header
fields and the declared version, issuing no device operation — resolves iff
the header code equals the T7 magic, the intended device is one of the two
accepted T7 targets and the contained version equals the declared version;
the three single-condition failures report the three pairwise distinct
error kinds of lines 282-287. -/
theorem claim_C6 (dc : DriverConst) (info : ImageInformation) (ver : Nat) :
    (checkCompatibility dc info ver = Except.ok () ↔
      (info.headerCode = dc.T7_HEAD_FIRST_FOUR_BYTES ∧
       info.intendedDevice ∈ ALLOWED_IMAGE_INFO_DEVICE_TYPES dc ∧
       info.containedVersion = ver))
    ∧ (info.headerCode ≠ dc.T7_HEAD_FIRST_FOUR_BYTES →
        checkCompatibility dc info ver = Except.error "Invalid header code.")
    ∧ (info.headerCode = dc.T7_HEAD_FIRST_FOUR_BYTES →
       info.intendedDevice ∉ ALLOWED_IMAGE_INFO_DEVICE_TYPES dc →
        checkCompatibility dc info ver = Except.error "Incorrect device type.")
    ∧ (info.headerCode = dc.T7_HEAD_FIRST_FOUR_BYTES →
       info.intendedDevice ∈ ALLOWED_IMAGE_INFO_DEVICE_TYPES dc →
       info.containedVersion ≠ ver →
        checkCompatibility dc info ver = Except.error "Incorrect version.")
    ∧ (("Invalid header code." == "Incorrect device type.") = false)
    ∧ (("Invalid header code." == "Incorrect version.") = false)
    ∧ (("Incorrect device type." == "Incorrect version.") = false) := by
  refine ⟨?_, ?_, ?_, ?_, by decide, by decide, by decide⟩ <;>
    by_cases h1 : info.headerCode = dc.T7_HEAD_FIRST_FOUR_BYTES <;>
    by_cases h2 : info.intendedDevice ∈ ALLOWED_IMAGE_INFO_DEVICE_TYPES dc <;>
    by_cases h3 : info.containedVersion = ver <;>
    simp_all [checkCompatibility, List.contains, List.elem_eq_mem]

theorem claim_C6_witness :
    checkCompatibility dcSample
      { headerCode := 5, intendedDevice := 999, containedVersion := 10067 }
      10067 = Except.error "Incorrect device type." :=
  (claim_C6 dcSample
      { headerCode := 5, intendedDevice := 999, containedVersion := 10067 }
      10067).2.2.1 rfl (by decide)

/-- Claim C7.  The claim says `checkImageWrite` succeeds iff the readback
matches imageBytes word for word, reporting the smallest mismatching index
on failure; the code instead resolves for every image and every readback
(first conjunct), in particular when readback word 17 is 0xCAFEBABE while
the bundle's bytes 68-71 encode 0xDEADBEEF at word 17 (second conjunct):
`readImage` resolves with the bundle, so the comparison loop's bound is
undefined and it runs zero times. -/
theorem claim_C7 :
    (∀ (bundleImageBytes : List Nat) (imgReturns : List (List Nat)),
      checkImageWrite bundleImageBytes imgReturns = Outcome.resolved)
    ∧ checkImageWrite (List.replicate 68 0 ++ [222, 173, 190, 239])
        [List.replicate 17 0 ++ [3405691582]] = Outcome.resolved :=
  ⟨fun _ _ => rfl, rfl⟩

/-- Claim C8.  The first module copy parses Number(fileSrc.split('_')[1]),
which on the claim's filename selects the token `firmware` and yields NaN
(first and third conjuncts, the third at the repo's own unit-test filename
expecting 10); the second module copy strips the `T7_firmware_` prefix and
yields the claimed 1.0067 resp. 10 (second and fourth conjuncts); the
first copy's rule does produce 1.0067 on the single-prefix-token filename
used by singleDevice-test (fifth conjunct). -/
theorem claim_C8 :
    firmwareVersionTimes10000 "T7_firmware_010067_2014-02-24.bin".toList = none
    ∧ firmwareVersionTimes10000Alt "T7_firmware_010067_2014-02-24.bin".toList =
        some 10067
    ∧ firmwareVersionTimes10000 "T7_firmware_100000_200000.bin".toList = none
    ∧ firmwareVersionTimes10000Alt "T7_firmware_100000_200000.bin".toList =
        some 100000
    ∧ firmwareVersionTimes10000 "T7firmware_010067_2014-02-24.bin".toList =
        some 10067 := by
  exact ⟨by decide, by decide, by decide, by decide, by decide⟩

/-- Claim C9.  The claim says an fs.readFile I/O error is propagated as a
rejection of the returned promise; the code ignores `err`, so on any I/O
error the callback throws while constructing the Buffer and the promise
never settles — it neither resolves nor rejects. -/
theorem claim_C9 :
    (∀ (fileSrc : List Char) (e : String),
      readFirmwareFile fileSrc (Except.error e) = ReadFileOutcome.neverSettled)
    ∧ readFirmwareFile "missing.bin".toList (Except.error "ENOENT") =
        ReadFileOutcome.neverSettled :=
  ⟨fun _ _ => rfl, rfl⟩

/-- Claim C10.  With numPages = 0, range(0) is empty, so `eraseFlash` issues
no writeMany call at all and the eachSeries completion callback resolves
the promise with the unchanged bundle, for every start address, key and
device behaviour. -/
theorem claim_C10 (dc : DriverConst) (startAddress key : Nat)
    (deviceErr : WriteManyCall → Option String) :
    eraseFlashCalls dc startAddress 0 key = []
    ∧ eraseFlashOutcome dc startAddress 0 key deviceErr = Outcome.resolved :=
  ⟨rfl, rfl⟩

end T7Upgrade
